import Mathlib

/-!
Verification of the physics/collision/player-state core of a 2D platformer.

The development is a shallow embedding of the JavaScript source:

* `src/unnamed/part_001`  — physics constants, `Vector2`, `Rectangle`,
  `CollisionDetector`, `Utils`;
* `src/js/entities.js`    — `Player`, `Enemy` (the file contains two
  concatenated copies of each class; the first copy, lines 9-1371, is the
  one referenced throughout and the one embedded here).

JavaScript numbers are embedded as `ℚ` (all claim-relevant operations are
field arithmetic and order comparisons).  The few places where the source
can receive NaN/Infinity/non-number values (the `Rectangle` constructor)
are embedded through an explicit `JSVal` wrapper.  Purely visual state
(animations, particles, squash-stretch, celebration), which the spec
places out of scope, is not part of the embedded state.
-/

-- Physics constants, from the PHYSICS object in src/unnamed/part_001.
namespace PHYSICS

def GRAVITY : ℚ := 1/2
def FRICTION : ℚ := 4/5
def AIR_RESISTANCE : ℚ := 49/50
def ACCELERATION : ℚ := 2/5
def DECELERATION : ℚ := 3/5
def JUMP_FORCE : ℚ := -15
def MAX_FALL_SPEED : ℚ := 12
def MAX_SPEED : ℚ := 4
def DASH_SPEED : ℚ := 10
def WALL_SLIDE_SPEED : ℚ := 5/2
def WALL_JUMP_X : ℚ := 6
def MAGNET_RADIUS : ℚ := 110

end PHYSICS

-- Game configuration constants, from the GAME_CONFIG object.
namespace GAME_CONFIG

def FPS : ℚ := 60
def CANVAS_WIDTH : ℚ := 800
def CANVAS_HEIGHT : ℚ := 600
def PLAYER_SPEED : ℚ := 6
def ENEMY_SPEED : ℚ := 2

end GAME_CONFIG

/-- `Utils.clamp(value, min, max) = Math.min(Math.max(value, min), max)`. -/
def Utils.clamp (value lo hi : ℚ) : ℚ := min (max value lo) hi

/-- A JavaScript value as seen by the `Rectangle` constructor's sanitizer:
a finite number, a non-finite number (`NaN`, `Infinity`, `-Infinity`), or
a value that is not a number at all. -/
inductive JSVal where
  | num (q : ℚ)
  | nan
  | inf
  | negInf
  | other
deriving DecidableEq

/-- Whether a `JSVal` passes the constructor's
`typeof v === 'number' && Number.isFinite(v)` test. -/
def JSVal.isFiniteNumber : JSVal → Bool
  | .num _ => true
  | _ => false

/-- The sanitizer `toNum(v, def)` used by the `Rectangle` constructor:
returns the value when it is a finite number and the default otherwise. -/
def JSVal.toNum (v : JSVal) (d : ℚ) : ℚ :=
  match v with
  | .num q => q
  | _ => d

/-- The `Rectangle` class: after construction all fields are finite
rationals and `width`/`height` are non-negative. -/
structure Rectangle where
  x : ℚ
  y : ℚ
  width : ℚ
  height : ℚ
deriving DecidableEq

/-- The `Rectangle` constructor:
`x = toNum(x, 0)`, `y = toNum(y, 0)`,
`width = Math.max(0, toNum(width, 0))`, `height = Math.max(0, toNum(height, 0))`. -/
def mkRectangle (x y w h : JSVal) : Rectangle :=
  { x := x.toNum 0
    y := y.toNum 0
    width := max 0 (w.toNum 0)
    height := max 0 (h.toNum 0) }

/-- The `Rectangle` constructor applied to plain finite numbers (every
construction site inside the collision code passes entity fields, which
are numbers). -/
def Rectangle.ofNums (x y w h : ℚ) : Rectangle :=
  mkRectangle (.num x) (.num y) (.num w) (.num h)

def Rectangle.left (r : Rectangle) : ℚ := r.x

def Rectangle.right (r : Rectangle) : ℚ := r.x + r.width

def Rectangle.top (r : Rectangle) : ℚ := r.y

def Rectangle.bottom (r : Rectangle) : ℚ := r.y + r.height

/-- `Rectangle.intersects`:
`!(left > r.right || right < r.left || top > r.bottom || bottom < r.top)`. -/
def Rectangle.intersects (a b : Rectangle) : Bool :=
  !(decide (a.left > b.right) || decide (a.right < b.left) ||
    decide (a.top > b.bottom) || decide (a.bottom < b.top))

/-- A moving body as the collision detector sees it: position, box and
velocity (both `Player` and `Enemy` are passed to
`CollisionDetector.checkPlatformCollision`). -/
structure Body where
  x : ℚ
  y : ℚ
  width : ℚ
  height : ℚ
  vx : ℚ
  vy : ℚ
deriving DecidableEq

/-- Platform behavior tags (`platform.type`). -/
inductive PlatformType where
  | normal
  | moving
  | breakable
  | ice
  | mud
  | bounce
  | spike
deriving DecidableEq

/-- The part of a `Platform` read by the collision and player code. -/
structure Platform where
  x : ℚ
  y : ℚ
  width : ℚ
  height : ℚ
  type : PlatformType
deriving DecidableEq

/-- Result of `CollisionDetector.checkPlatformCollision`: the JS object
`{isOnGround, collision}` where `collision` is `null` or
`{type: 'ground', y}` (the `type` field is the constant string
`'ground'`, so `collision` is embedded as the optional landing `y`). -/
structure CollisionResult where
  isOnGround : Bool
  collision : Option ℚ
deriving DecidableEq

namespace CollisionDetector

/-- `CollisionDetector.checkCollision`. -/
def checkCollision (rect1 rect2 : Rectangle) : Bool :=
  rect1.intersects rect2

/-- `CollisionDetector.checkPlatformCollision(player, platform)`,
lines 162-206 of `src/unnamed/part_001`, including the swept/tunneling
fallback for the non-overlapping case and the dynamic-tolerance check for
the overlapping case. -/
def checkPlatformCollision (player : Body) (platform : Platform) : CollisionResult :=
  let playerRect := Rectangle.ofNums player.x player.y player.width player.height
  let platformRect := Rectangle.ofNums platform.x platform.y platform.width platform.height
  let prevX := player.x - player.vx
  let prevY := player.y - player.vy
  let prevBottom := prevY + player.height
  let currentBottom := player.y + player.height
  let platformTop := platform.y
  let currentHorizOverlap : Prop :=
    playerRect.right > platformRect.left ∧ playerRect.left < platformRect.right
  let prevHorizOverlap : Prop :=
    prevX + player.width > platformRect.left ∧ prevX < platformRect.right
  if ¬ (checkCollision playerRect platformRect = true) then
    if player.vy ≥ 0 ∧ prevBottom ≤ platformTop ∧ currentBottom ≥ platformTop ∧
        (currentHorizOverlap ∨ prevHorizOverlap) then
      { isOnGround := true, collision := some (platformTop - player.height) }
    else
      { isOnGround := false, collision := none }
  else
    let playerBottom := player.y + player.height
    let dynamicTolerance := max 8 |player.vy| + 2
    if player.vy ≥ 0 ∧ prevBottom ≤ platformTop + dynamicTolerance ∧
        playerBottom ≤ platformTop + dynamicTolerance then
      { isOnGround := true, collision := some (platformTop - player.height) }
    else
      { isOnGround := false, collision := none }

/-- `CollisionDetector.checkEnemyCollision`: plain AABB test, rejecting
zero/negative-size boxes defensively. -/
def checkEnemyCollision (player enemy : Body) : Bool :=
  let playerRect := Rectangle.ofNums player.x player.y player.width player.height
  let enemyRect := Rectangle.ofNums enemy.x enemy.y enemy.width enemy.height
  if playerRect.width ≤ 0 ∨ playerRect.height ≤ 0 ∨
      enemyRect.width ≤ 0 ∨ enemyRect.height ≤ 0 then
    false
  else
    checkCollision playerRect enemyRect

end CollisionDetector

/-- Per-frame input snapshot `{left, right, jump, down, dash}`. -/
structure Input where
  left : Bool
  right : Bool
  jump : Bool
  down : Bool
  dash : Bool
deriving DecidableEq

/-- The environment/session data the player and enemy code reads through
the global `window.game` object: the per-stage environment descriptor
(`windX`, `gravityScale`, `frictionScale`), the current stage index, the
stage width (`getCurrentStageWidth()`) and the respawn point
(`getRespawnPosition()`).  When `window.game` is absent the source falls
back to `windX = 0`, `gravityScale = 1`, `frictionScale = 1`,
`stageWidth = CANVAS_WIDTH`, respawn `(100, 500)`; that situation is the
`Env` record holding exactly those values. -/
structure Env where
  windX : ℚ
  gravityScale : ℚ
  frictionScale : ℚ
  currentStage : ℤ
  stageWidth : ℚ
  respawnX : ℚ
  respawnY : ℚ
deriving DecidableEq

/-- The `this.powerUps` record of the player. -/
structure PowerUps where
  jumpBoost : Bool
  jumpBoostTime : ℚ
  invincible : Bool
  invincibleTime : ℚ
  dash : Bool
  dashTime : ℚ
  magnet : Bool
  magnetTime : ℚ
deriving DecidableEq

/-- Gameplay-relevant state of the `Player` class (first copy,
`src/js/entities.js` lines 9-1096).  `vx`/`vy` are `this.velocity.x` and
`this.velocity.y`.  Purely visual fields (animation, particles,
celebrate, tail/body/ear animation, squash, anticipation, idle
micro-motion, `state`/`prevState`/`stateTime`) are presentation-only and
not embedded. -/
structure Player where
  x : ℚ
  y : ℚ
  width : ℚ
  height : ℚ
  vx : ℚ
  vy : ℚ
  isOnGround : Bool
  facingRight : Bool
  lives : ℤ
  score : ℤ
  invulnerable : Bool
  invulnerableTime : ℚ
  jumpPressed : Bool
  coyoteTime : ℚ
  jumpBuffer : ℚ
  maxAirJumps : ℤ
  airJumpsRemaining : ℤ
  isDashing : Bool
  dashTimer : ℚ
  dashCooldownTimer : ℚ
  dashDirection : ℚ
  isTouchingWallLeft : Bool
  isTouchingWallRight : Bool
  isWallSliding : Bool
  wallJumpLockTimer : ℚ
  powerUps : PowerUps
  surfaceFrictionScale : ℚ
deriving DecidableEq

-- Constructor-fixed scalar fields of Player: they are set once in the
-- constructor and never reassigned anywhere in the source, so they are
-- embedded as constants.
def Player.coyoteTimeMax : ℚ := 120
def Player.jumpBufferMax : ℚ := 120
def Player.dashDurationMs : ℚ := 180
def Player.dashCooldownMs : ℚ := 700
def Player.dashSpeed : ℚ := PHYSICS.DASH_SPEED

/-- The `Player` constructor (gameplay fields). -/
def Player.init (x y : ℚ) : Player :=
  { x := x, y := y, width := 32, height := 32, vx := 0, vy := 0
    isOnGround := false, facingRight := true, lives := 3, score := 0
    invulnerable := false, invulnerableTime := 0, jumpPressed := false
    coyoteTime := 0, jumpBuffer := 0
    maxAirJumps := 1, airJumpsRemaining := 1
    isDashing := false, dashTimer := 0, dashCooldownTimer := 0, dashDirection := 1
    isTouchingWallLeft := false, isTouchingWallRight := false
    isWallSliding := false, wallJumpLockTimer := 0
    powerUps := ⟨false, 0, false, 0, false, 0, false, 0⟩
    surfaceFrictionScale := 1 }

def Player.toBody (p : Player) : Body :=
  ⟨p.x, p.y, p.width, p.height, p.vx, p.vy⟩

/-- The frame-normalization ratio `(deltaTime / (1000 / GAME_CONFIG.FPS) || 1)`
appearing in `handleHorizontalMovement` and in the wind step: the JS `||`
replaces a zero (or NaN, impossible over `ℚ`) ratio by 1. -/
def dtScale (dt : ℚ) : ℚ :=
  let r := dt / (1000 / GAME_CONFIG.FPS)
  if r = 0 then 1 else r

/-- The accelerate-toward-target block of `handleHorizontalMovement`,
lines 128-151 (the overshoot checks after adding or subtracting the
acceleration, and the decelerate-toward-zero branch). -/
def Player.hhmAccelStep (vx targetVelocityX acceleration deceleration : ℚ) : ℚ :=
  if targetVelocityX ≠ 0 then
    if vx < targetVelocityX then
      let v := vx + acceleration
      if v > targetVelocityX then targetVelocityX else v
    else if vx > targetVelocityX then
      let v := vx - acceleration
      if v < targetVelocityX then targetVelocityX else v
    else vx
  else
    if vx > 0 then
      let v := vx - deceleration
      if v < 0 then 0 else v
    else if vx < 0 then
      let v := vx + deceleration
      if v > 0 then 0 else v
    else vx

/-- `Player.handleHorizontalMovement`, lines 111-175: accelerate toward
the target speed, clamp to `±MAX_SPEED`, apply friction or air
resistance only when no directional input is held, snap tiny speeds to
zero. -/
def Player.handleHorizontalMovement (p : Player) (input : Input) (dt : ℚ) (env : Env) : Player :=
  let targetSpeed := GAME_CONFIG.PLAYER_SPEED
  let acceleration := PHYSICS.ACCELERATION * dtScale dt
  let deceleration := PHYSICS.DECELERATION * dtScale dt
  let targetVelocityX : ℚ :=
    if input.left then -targetSpeed else if input.right then targetSpeed else 0
  let facingRight :=
    if input.left then false else if input.right then true else p.facingRight
  let vx1 := Player.hhmAccelStep p.vx targetVelocityX acceleration deceleration
  let vx2 := Utils.clamp vx1 (-PHYSICS.MAX_SPEED) PHYSICS.MAX_SPEED
  let vx3 :=
    if targetVelocityX = 0 then
      if p.isOnGround then
        let baseDamp := 1 - PHYSICS.FRICTION
        let envScale := env.frictionScale
        let totalDamp := baseDamp * envScale * p.surfaceFrictionScale
        let effectiveFriction := 1 - Utils.clamp totalDamp 0 (9/10)
        vx2 * effectiveFriction
      else
        vx2 * PHYSICS.AIR_RESISTANCE
    else vx2
  let vx4 := if |vx3| < 1/20 then 0 else vx3
  { p with vx := vx4, facingRight := facingRight }

/-- The timer-upkeep block of `handleJump`, lines 181-187: refresh the
coyote window while grounded, refill the jump buffer on a press, decay
both otherwise. -/
def Player.jumpTimersTick (p : Player) (input : Input) (dt : ℚ) : Player :=
  { p with coyoteTime := if p.isOnGround then Player.coyoteTimeMax else max 0 (p.coyoteTime - dt)
           jumpBuffer := if input.jump then Player.jumpBufferMax else max 0 (p.jumpBuffer - dt) }

/-- The jump-start block of `handleJump`, lines 189-231: a buffered
press fires a ground/coyote jump, a wall jump (outward impulse plus
re-contact lock) or an air jump (charge decrement). -/
def Player.jumpFire (p : Player) : Player :=
  let wantsJump : Prop := p.jumpBuffer > 0 ∧ p.jumpPressed = false
  let canGroundJump : Prop := p.isOnGround = true ∨ p.coyoteTime > 0
  let canWallJump : Prop := p.isWallSliding = true
  let canAirJump : Prop := ¬canGroundJump ∧ ¬canWallJump ∧ p.airJumpsRemaining > 0
  if wantsJump ∧ (canGroundJump ∨ canWallJump ∨ canAirJump) then
    let jumpForce :=
      if p.powerUps.jumpBoost then PHYSICS.JUMP_FORCE * (3/2) else PHYSICS.JUMP_FORCE
    let pj := { p with vy := jumpForce, isOnGround := false, jumpPressed := true,
                       coyoteTime := 0, jumpBuffer := 0 }
    if canWallJump then
      let away : ℚ :=
        if p.isTouchingWallLeft then 1
        else if p.isTouchingWallRight then -1
        else if p.facingRight then 1 else -1
      { pj with vx := PHYSICS.WALL_JUMP_X * away, wallJumpLockTimer := 120,
                isWallSliding := false }
    else if canAirJump then
      { pj with airJumpsRemaining := max 0 (p.airJumpsRemaining - 1) }
    else pj
  else p

/-- The button-release block of `handleJump`, lines 234-242: clearing
the held flag and the 0.7 upward-velocity cut for variable jump
height. -/
def Player.jumpRelease (p : Player) (input : Input) : Player :=
  if input.jump = false then
    let p3 : Player := { p with jumpPressed := false }
    if p3.vy < 0 then { p3 with vy := p3.vy * (7/10) } else p3
  else p

/-- `Player.handleJump`, lines 180-243: coyote-time and jump-buffer
upkeep, ground/coyote jump, wall jump, air jump, and the 0.7 upward-speed
cut when the button is not held. -/
def Player.handleJump (p : Player) (input : Input) (dt : ℚ) : Player :=
  Player.jumpRelease (Player.jumpFire (Player.jumpTimersTick p input dt)) input

/-- `Player.updatePowerUps`, lines 248-266: only the jump-boost and
invincibility timers are ticked (the dash and magnet timers are not
touched by this method). -/
def Player.updatePowerUps (p : Player) (dt : ℚ) : Player :=
  let p1 :=
    if p.powerUps.jumpBoost = true then
      let t := p.powerUps.jumpBoostTime - dt
      if t ≤ 0 then
        { p with powerUps := { p.powerUps with jumpBoost := false, jumpBoostTime := 0 } }
      else
        { p with powerUps := { p.powerUps with jumpBoostTime := t } }
    else p
  if p1.powerUps.invincible = true then
    let t := p1.powerUps.invincibleTime - dt
    if t ≤ 0 then
      { p1 with powerUps := { p1.powerUps with invincible := false, invincibleTime := 0 } }
    else
      { p1 with powerUps := { p1.powerUps with invincibleTime := t } }
  else p1

/-- The activation block of `handleDash`, lines 270-279: direction
pick, duration lock (1.3 times with the dash power-up), speed lock to
`dashSpeed * direction`, downward-velocity halving. -/
def Player.dashActivate (p : Player) (input : Input) : Player :=
  if p.isDashing = false ∧ input.dash = true ∧ p.dashCooldownTimer ≤ 0 then
    let dashDirection : ℚ :=
      if input.left then -1 else if input.right then 1
      else if p.facingRight then 1 else -1
    { p with isDashing := true
             dashTimer := Player.dashDurationMs * (if p.powerUps.dash then 13/10 else 1)
             dashDirection := dashDirection
             vx := Player.dashSpeed * dashDirection
             vy := if p.vy > 0 then p.vy * (1/2) else p.vy }
  else p

/-- The while-dashing speed lock of `handleDash`, lines 281-283. -/
def Player.dashLock (p : Player) : Player :=
  if p.isDashing = true then { p with vx := Player.dashSpeed * p.dashDirection } else p

/-- The cooldown tick of `handleDash`, line 285. -/
def Player.dashCooldownTick (p : Player) (dt : ℚ) : Player :=
  if p.dashCooldownTimer > 0 then { p with dashCooldownTimer := p.dashCooldownTimer - dt } else p

/-- The duration tick and expiry of `handleDash`, lines 286-292 (on
expiry the cooldown starts, halved with the dash power-up). -/
def Player.dashTimerTick (p : Player) (dt : ℚ) : Player :=
  if p.isDashing = true then
    let t := p.dashTimer - dt
    if t ≤ 0 then
      { p with dashTimer := t, isDashing := false
               dashCooldownTimer := Player.dashCooldownMs * (if p.powerUps.dash then 1/2 else 1) }
    else { p with dashTimer := t }
  else p

/-- `Player.handleDash`, lines 268-293: activation (direction pick, speed
lock, downward-velocity halving), speed lock while active, cooldown tick,
duration tick and expiry. -/
def Player.handleDash (p : Player) (input : Input) (dt : ℚ) : Player :=
  Player.dashTimerTick (Player.dashCooldownTick (Player.dashLock (Player.dashActivate p input)) dt) dt

/-- `Player.updateWallSlide`, lines 295-310. -/
def Player.updateWallSlide (p : Player) (input : Input) (dt : ℚ) : Player :=
  let pressingLeftWall : Prop := p.isTouchingWallLeft = true ∧ input.left = true
  let pressingRightWall : Prop := p.isTouchingWallRight = true ∧ input.right = true
  let sliding : Prop := p.isOnGround = false ∧ (pressingLeftWall ∨ pressingRightWall) ∧
      p.vy > 1/20 ∧ p.wallJumpLockTimer ≤ 0
  let p1 :=
    if sliding then
      { p with isWallSliding := true, vy := min p.vy PHYSICS.WALL_SLIDE_SPEED,
               isOnGround := false }
    else { p with isWallSliding := false }
  let p2 := { p1 with isTouchingWallLeft := false, isTouchingWallRight := false }
  if p2.wallJumpLockTimer > 0 then { p2 with wallJumpLockTimer := p2.wallJumpLockTimer - dt } else p2

/-- `Player.takeDamage`, lines 770-809: no-op while invulnerable or under
the invincibility power-up; otherwise decrement lives, open a 2000 ms
invulnerability window, and (while lives remain) respawn with zeroed
velocity.  `window.game.onPlayerDamaged` and the damage particles are
presentation-side effects with no player state. -/
def Player.takeDamage (p : Player) (env : Env) : Player :=
  if p.invulnerable = true ∨ p.powerUps.invincible = true then p
  else
    let p1 := { p with lives := p.lives - 1, invulnerable := true, invulnerableTime := 2000 }
    if p1.lives > 0 then
      { p1 with x := env.respawnX, y := env.respawnY, vx := 0, vy := 0, isOnGround := false }
    else p1

/-- `Player.checkBounds`, lines 528-552: clamp `x` to the stage, zeroing
outward velocity on contact; falling below `CANVAS_HEIGHT + 50` triggers
damage. -/
def Player.checkBounds (p : Player) (env : Env) : Player :=
  let worldWidth := env.stageWidth
  let p1 :=
    if p.x < 0 then
      { p with x := 0, vx := if p.vx < 0 then 0 else p.vx }
    else if p.x + p.width > worldWidth then
      { p with x := worldWidth - p.width, vx := if p.vx > 0 then 0 else p.vx }
    else p
  if p1.y > GAME_CONFIG.CANVAS_HEIGHT + 50 then p1.takeDamage env else p1

/-- Body of the `platforms.forEach` loop in `Player.checkPlatformCollisions`,
lines 560-607: ground resolution (snap `y`, restore air jumps, the
platform-type switch) followed by the coarse wall-contact probe. -/
def Player.platformStep (env : Env) (p : Player) (platform : Platform) : Player :=
  let collision := CollisionDetector.checkPlatformCollision p.toBody platform
  let p1 :=
    if collision.isOnGround = true then
      -- collision.collision is never null when isOnGround
      -- (checkPlatformCollision_collision_isSome)
      let q := { p with isOnGround := true
                        y := min p.y (collision.collision.getD p.y)
                        airJumpsRemaining := p.maxAirJumps }
      match platform.type with
      | .ice =>
        { q with surfaceFrictionScale := if env.currentStage = 3 then 4/5 else 1/2, vy := 0 }
      | .mud => { q with surfaceFrictionScale := 2, vy := 0 }
      | .bounce => { q with vy := PHYSICS.JUMP_FORCE * (9/10), isOnGround := false }
      | .spike => Player.takeDamage { q with vy := 0 } env
      | _ => { q with vy := 0 }
    else p
  let playerRect := Rectangle.ofNums p1.x p1.y p1.width p1.height
  let platformRect := Rectangle.ofNums platform.x platform.y platform.width platform.height
  let yOverlap : Prop := playerRect.bottom > platformRect.top ∧ playerRect.top < platformRect.bottom
  let nearLeft : Prop := |playerRect.right - platformRect.left| < 4
  let nearRight : Prop := |playerRect.left - platformRect.right| < 4
  if p1.isOnGround = false ∧ yOverlap ∧ p1.wallJumpLockTimer ≤ 0 then
    { p1 with isTouchingWallRight := if nearLeft then true else p1.isTouchingWallRight
              isTouchingWallLeft := if nearRight then true else p1.isTouchingWallLeft }
  else p1

/-- `Player.checkPlatformCollisions`, lines 554-608: reset the ground
flag and surface friction, then run `platformStep` over every platform. -/
def Player.checkPlatformCollisions (p : Player) (platforms : List Platform) (env : Env) : Player :=
  let p0 := { p with isOnGround := false, surfaceFrictionScale := 1 }
  platforms.foldl (Player.platformStep env) p0

/-- Enemy behavior tags (`enemy.type`). -/
inductive EnemyType where
  | basic
  | jumper
  | chaser
  | flyer
  | tank
deriving DecidableEq

/-- Gameplay-relevant state of the `Enemy` class (first copy,
`src/js/entities.js` lines 1101-1371).  `vx`/`vy` are `this.velocity.x`
and `this.velocity.y`; the animation is presentation-only and not
embedded. -/
structure Enemy where
  x : ℚ
  y : ℚ
  originalY : ℚ
  width : ℚ
  height : ℚ
  vx : ℚ
  vy : ℚ
  type : EnemyType
  direction : ℚ
  patrolDistance : ℚ
  startX : ℚ
  isDead : Bool
  health : ℤ
  jumpCooldown : ℚ
  jumpTimer : ℚ
  detectionRange : ℚ
  flyTime : ℚ
  amplitude : ℚ
  flySpeed : ℚ
deriving DecidableEq

/-- The `Enemy` constructor.  `jumpCooldown` is
`1000 + Math.random() * 800` in the source; the sampled value is taken as
a parameter. -/
def Enemy.init (x y : ℚ) (type : EnemyType) (jumpCooldown : ℚ) : Enemy :=
  { x := x, y := y, originalY := y, width := 24, height := 24
    vx := -GAME_CONFIG.ENEMY_SPEED, vy := 0
    type := type, direction := -1, patrolDistance := 100, startX := x
    isDead := false
    health := if type = .tank then 3 else 1
    jumpCooldown := jumpCooldown, jumpTimer := 0
    detectionRange := 220, flyTime := 0, amplitude := 28
    flySpeed := GAME_CONFIG.ENEMY_SPEED * (9/10) }

def Enemy.toBody (e : Enemy) : Body :=
  ⟨e.x, e.y, e.width, e.height, e.vx, e.vy⟩

/-- `Enemy.takeHit`, lines 1283-1291: a dead enemy reports dead without
losing health; otherwise health drops by one and the enemy dies exactly
when health reaches zero. -/
def Enemy.takeHit (e : Enemy) : Enemy × Bool :=
  if e.isDead = true then (e, true)
  else
    let e1 : Enemy := { e with health := e.health - 1 }
    if e1.health ≤ 0 then ({ e1 with isDead := true }, true)
    else (e1, false)

/-- Body of the `platforms.forEach` loop in
`Enemy.checkPlatformCollisions`, lines 1251-1260: snap to the reported
landing `y` and zero vertical velocity. -/
def Enemy.platformStep (acc : Enemy) (pl : Platform) : Enemy :=
  let collision := CollisionDetector.checkPlatformCollision acc.toBody pl
  if collision.isOnGround = true then
    -- collision.collision is never null when isOnGround
    { acc with y := collision.collision.getD acc.y, vy := 0 }
  else acc

/-- `Enemy.checkPlatformCollisions`, lines 1247-1261: flyers skip it;
grounded types snap to the reported landing `y` and zero vertical
velocity. -/
def Enemy.checkPlatformCollisions (e : Enemy) (platforms : List Platform) : Enemy :=
  if e.type = .flyer then e
  else platforms.foldl Enemy.platformStep e

/-- `Enemy.checkBounds`, lines 1263-1281: clamp to the stage, reversing
direction at the edges; non-flyers die below the canvas. -/
def Enemy.checkBounds (e : Enemy) (env : Env) : Enemy :=
  let worldWidth := env.stageWidth
  let e1 : Enemy :=
    if e.x < 0 then { e with x := 0, direction := 1 }
    else if e.x + e.width > worldWidth then
      { e with x := worldWidth - e.width, direction := -1 }
    else e
  if e1.type ≠ .flyer ∧ e1.y > GAME_CONFIG.CANVAS_HEIGHT then
    { e1 with isDead := true }
  else e1

/-- `Enemy.update`, lines 1163-1245: early return when dead, then the
per-type state machine.  `sine` stands for `Math.sin`, used only by the
flyer's vertical oscillation. -/
def Enemy.update (sine : ℚ → ℚ) (e : Enemy) (dt : ℚ) (platforms : List Platform)
    (player : Option (ℚ × ℚ)) (env : Env) : Enemy :=
  if e.isDead = true then e
  else
    match e.type with
    | .jumper =>
      let e1 : Enemy := { e with x := e.x + GAME_CONFIG.ENEMY_SPEED * (4/5) * e.direction }
      let e2 : Enemy :=
        if e1.x ≤ e1.startX - e1.patrolDistance ∨ e1.x ≥ e1.startX + e1.patrolDistance then
          { e1 with direction := -e1.direction }
        else e1
      let e3 : Enemy := { e2 with jumpTimer := e2.jumpTimer + dt }
      let e4 : Enemy :=
        if e3.jumpTimer ≥ e3.jumpCooldown then
          { e3 with jumpTimer := 0, vy := PHYSICS.JUMP_FORCE * (7/10) }
        else e3
      let e5 : Enemy := { e4 with vy := Utils.clamp (e4.vy + PHYSICS.GRAVITY) (-10) PHYSICS.MAX_FALL_SPEED }
      let e6 : Enemy := { e5 with y := e5.y + e5.vy }
      (e6.checkPlatformCollisions platforms).checkBounds env
    | .chaser =>
      let patrolSpeed : ℚ := GAME_CONFIG.ENEMY_SPEED * (11/10)
      let step :=
        match player with
        | some (px, py) =>
          let dx := px - e.x
          let dy := |py - e.y|
          if |dx| < e.detectionRange ∧ dy < 80 then
            ({ e with direction := if dx ≥ 0 then 1 else -1 }, GAME_CONFIG.ENEMY_SPEED * (8/5))
          else if e.x ≤ e.startX - e.patrolDistance ∨ e.x ≥ e.startX + e.patrolDistance then
            ({ e with direction := -e.direction }, patrolSpeed)
          else (e, patrolSpeed)
        | none => (e, patrolSpeed)
      let e1 : Enemy := step.1
      let e2 : Enemy := { e1 with x := e1.x + step.2 * e1.direction }
      let e3 : Enemy := { e2 with vy := Utils.clamp (e2.vy + PHYSICS.GRAVITY) (-10) PHYSICS.MAX_FALL_SPEED }
      let e4 : Enemy := { e3 with y := e3.y + e3.vy }
      (e4.checkPlatformCollisions platforms).checkBounds env
    | .flyer =>
      let e1 : Enemy := { e with flyTime := e.flyTime + dt }
      let e2 : Enemy := { e1 with x := e1.x + e1.flySpeed * e1.direction }
      let e3 : Enemy := { e2 with y := e2.originalY + sine (e2.flyTime * (1/200)) * e2.amplitude }
      let e4 : Enemy :=
        if e3.x ≤ e3.startX - e3.patrolDistance ∨ e3.x ≥ e3.startX + e3.patrolDistance then
          { e3 with direction := -e3.direction }
        else e3
      e4.checkBounds env
    | .tank =>
      let e1 : Enemy := { e with x := e.x + GAME_CONFIG.ENEMY_SPEED * (3/5) * e.direction }
      let e2 : Enemy :=
        if e1.x ≤ e1.startX - e1.patrolDistance * (4/5) ∨ e1.x ≥ e1.startX + e1.patrolDistance * (4/5) then
          { e1 with direction := -e1.direction }
        else e1
      let e3 : Enemy := { e2 with vy := Utils.clamp (e2.vy + PHYSICS.GRAVITY) (-10) PHYSICS.MAX_FALL_SPEED }
      let e4 : Enemy := { e3 with y := e3.y + e3.vy }
      (e4.checkPlatformCollisions platforms).checkBounds env
    | .basic =>
      let e1 : Enemy := { e with x := e.x + e.vx * e.direction }
      let e2 : Enemy :=
        if e1.x ≤ e1.startX - e1.patrolDistance ∨ e1.x ≥ e1.startX + e1.patrolDistance then
          { e1 with direction := -e1.direction }
        else e1
      let e3 : Enemy := { e2 with vy := Utils.clamp (e2.vy + PHYSICS.GRAVITY) (-10) PHYSICS.MAX_FALL_SPEED }
      let e4 : Enemy := { e3 with y := e3.y + e3.vy }
      (e4.checkPlatformCollisions platforms).checkBounds env

/-- The `Coin` entity fields read by collection. -/
structure Coin where
  x : ℚ
  y : ℚ
  width : ℚ
  height : ℚ
  collected : Bool
deriving DecidableEq

/-- PowerUp type tags; an unrecognized string is `unknown`. -/
inductive PowerUpType where
  | jump
  | invincible
  | dash
  | magnet
  | unknown
deriving DecidableEq

/-- The `PowerUp` entity fields read by collection. -/
structure PowerUp where
  x : ℚ
  y : ℚ
  width : ℚ
  height : ℚ
  type : PowerUpType
deriving DecidableEq

/-- `CollisionDetector.checkCoinCollision`: plain AABB overlap. -/
def CollisionDetector.checkCoinCollision (player : Body) (coin : Coin) : Bool :=
  let playerRect := Rectangle.ofNums player.x player.y player.width player.height
  let coinRect := Rectangle.ofNums coin.x coin.y coin.width coin.height
  CollisionDetector.checkCollision playerRect coinRect

/-- `CollisionDetector.checkPowerUpCollision`: plain AABB overlap. -/
def CollisionDetector.checkPowerUpCollision (player : Body) (powerUp : PowerUp) : Bool :=
  let playerRect := Rectangle.ofNums player.x player.y player.width player.height
  let powerUpRect := Rectangle.ofNums powerUp.x powerUp.y powerUp.width powerUp.height
  CollisionDetector.checkCollision playerRect powerUpRect

/-- `Player.defeatEnemy`, lines 811-831: small upward bounce
(`velocity.y = JUMP_FORCE * 0.7`), then `this.addScore?.(20)` — the
`Player` class declares no `addScore` method anywhere in the repository,
so the optional call evaluates to `undefined` and the score is left
unchanged — then `enemy.takeHit()`.  Hitstop, sound, combo and particles
are presentation-side effects. -/
def Player.defeatEnemy (p : Player) (enemy : Enemy) : Player × Enemy :=
  let p1 : Player := { p with vy := PHYSICS.JUMP_FORCE * (7/10) }
  (p1, enemy.takeHit.1)

/-- Body of the `enemies.forEach` loop in `Player.checkEnemyCollisions`,
lines 617-627: a live overlapping enemy is stomped when the player is
moving down and above it, and otherwise damages the player. -/
def Player.enemyStep (env : Env) (acc : Player × List Enemy) (enemy : Enemy) : Player × List Enemy :=
  let p := acc.1
  if enemy.isDead = false ∧ CollisionDetector.checkEnemyCollision p.toBody enemy.toBody = true then
    if p.vy > 0 ∧ p.y < enemy.y then
      let r := p.defeatEnemy enemy
      (r.1, acc.2 ++ [r.2])
    else
      (p.takeDamage env, acc.2 ++ [enemy])
  else (p, acc.2 ++ [enemy])

/-- `Player.checkEnemyCollisions`, lines 610-628: an early return while
invulnerable or invincible, before any enemy is processed. -/
def Player.checkEnemyCollisions (p : Player) (enemies : List Enemy) (env : Env) : Player × List Enemy :=
  if p.invulnerable = true ∨ p.powerUps.invincible = true then (p, enemies)
  else enemies.foldl (Player.enemyStep env) (p, [])

/-- The per-coin pickup test of `Player.collectCoins`, lines 636-649:
magnet pickup within `MAGNET_RADIUS` of the centers, or AABB overlap.
`Utils.distance(...) <= radius` is embedded as the equivalent squared
comparison (both sides are non-negative). -/
def Player.coinPickup (p : Player) (coin : Coin) : Bool :=
  !coin.collected &&
    ((p.powerUps.magnet &&
        decide ((p.x + p.width/2 - (coin.x + coin.width/2))^2 +
          (p.y + p.height/2 - (coin.y + coin.height/2))^2 ≤ PHYSICS.MAGNET_RADIUS^2)) ||
      CollisionDetector.checkCoinCollision p.toBody coin)

/-- `Player.collectCoins`, lines 630-660: the descending-index loop
splices out exactly the newly collected coins (already-`collected` coins
are skipped and kept).  `this.addScore?.(10)` evaluates to `undefined`
(no `addScore` method exists), so the player state is unchanged; the
collection effect is presentation-only. -/
def Player.collectCoins (p : Player) (coins : List Coin) : Player × List Coin :=
  (p, coins.filter (fun c => !Player.coinPickup p c))

/-- `Player.applyPowerUp`, lines 698-723. -/
def Player.applyPowerUp (p : Player) (powerUp : PowerUp) : Player :=
  match powerUp.type with
  | .jump => { p with powerUps := { p.powerUps with jumpBoost := true, jumpBoostTime := 10000 } }
  | .invincible => { p with powerUps := { p.powerUps with invincible := true, invincibleTime := 8000 } }
  | .dash => { p with powerUps := { p.powerUps with dash := true, dashTime := 10000 } }
  | .magnet => { p with powerUps := { p.powerUps with magnet := true, magnetTime := 10000 } }
  | .unknown => p

/-- `Player.collectPowerUps`, lines 665-693: descending-index loop, so
the last list element is tested first; overlapping power-ups are applied
and spliced out. -/
def Player.collectPowerUps (p : Player) (powerUps : List PowerUp) : Player × List PowerUp :=
  powerUps.foldr
    (fun pu acc =>
      if CollisionDetector.checkPowerUpCollision acc.1.toBody pu = true then
        (acc.1.applyPowerUp pu, acc.2)
      else (acc.1, pu :: acc.2))
    (p, [])

/-- The gravity step of `Player.update`, lines 340-341:
`velocity.y += GRAVITY * gravityScale` followed by the clamp to
`[-20, MAX_FALL_SPEED]`. -/
def Player.applyGravity (vy gravityScale : ℚ) : ℚ :=
  Utils.clamp (vy + PHYSICS.GRAVITY * gravityScale) (-20) PHYSICS.MAX_FALL_SPEED

/-- The tuple of mutable collections `Player.update` writes back. -/
structure UpdateResult where
  player : Player
  enemies : List Enemy
  coins : List Coin
  powerUps : List PowerUp

/-- Lines 329-332 of `Player.update`: the dash step followed by normal
horizontal movement, which is suppressed while dashing. -/
def Player.dashOrMove (p : Player) (input : Input) (dt : ℚ) (env : Env) : Player :=
  let p1 := p.handleDash input dt
  if p1.isDashing = false then p1.handleHorizontalMovement input dt env else p1

/-- Lines 337-341 of `Player.update`: gravity with the environment
scale, clamped (the `window.game` fallback is `gravityScale = 1`). -/
def Player.applyGravityStep (p : Player) (env : Env) : Player :=
  { p with vy := Player.applyGravity p.vy env.gravityScale }

/-- Lines 343-349 of `Player.update`: frame-scaled wind with a re-clamp
to `±MAX_SPEED`, applied only when `windX` is non-zero. -/
def Player.applyWind (p : Player) (dt : ℚ) (env : Env) : Player :=
  if env.windX ≠ 0 then
    { p with vx := Utils.clamp (p.vx + env.windX * dtScale dt)
               (-PHYSICS.MAX_SPEED) PHYSICS.MAX_SPEED }
  else p

/-- Lines 351-353 of `Player.update`: position integration. -/
def Player.integrate (p : Player) : Player :=
  { p with x := p.x + p.vx, y := p.y + p.vy }

/-- Lines 371-377 of `Player.update`: the invulnerability countdown
(the decremented remainder is kept, the flag clears at zero). -/
def Player.invulnTick (p : Player) (dt : ℚ) : Player :=
  if p.invulnerable = true then
    let t := p.invulnerableTime - dt
    if t ≤ 0 then { p with invulnerable := false, invulnerableTime := t }
    else { p with invulnerableTime := t }
  else p

/-- `Player.update`, lines 312-393: dash, horizontal movement (suppressed
while dashing), jump, gravity, wind, integration, platform resolution,
wall slide, bounds, enemy collision, coin and power-up collection,
invulnerability and power-up timers.  Animation, particle and visual
state updates carry no gameplay state and are not embedded. -/
def Player.update (p : Player) (dt : ℚ) (platforms : List Platform) (enemies : List Enemy)
    (coins : List Coin) (powerUps : List PowerUp) (input : Input) (env : Env) : UpdateResult :=
  let p2 := Player.dashOrMove p input dt env
  let p3 := p2.handleJump input dt
  let p4 := Player.applyGravityStep p3 env
  let p5 := Player.applyWind p4 dt env
  let p6 := Player.integrate p5
  let p7 := p6.checkPlatformCollisions platforms env
  let p8 := p7.updateWallSlide input dt
  let p9 := p8.checkBounds env
  let r10 := p9.checkEnemyCollisions enemies env
  let r11 := r10.1.collectCoins coins
  let r12 := r11.1.collectPowerUps powerUps
  let p13 := Player.invulnTick r12.1 dt
  let p14 := p13.updatePowerUps dt
  ⟨p14, r10.2, r11.2, r12.2⟩

/-- Everything the game loop feeds `Player.update` in one frame. -/
structure Frame where
  dt : ℚ
  platforms : List Platform
  enemies : List Enemy
  coins : List Coin
  powerUps : List PowerUp
  input : Input
  env : Env

/-- A sequence of `Player.update` calls driven by per-frame inputs. -/
def Player.run (p : Player) (frames : List Frame) : Player :=
  frames.foldl
    (fun q f => (q.update f.dt f.platforms f.enemies f.coins f.powerUps f.input f.env).player)
    p

-- Concrete sample objects used by the witness and counterexample
-- theorems below.

/-- The environment values in effect when `window.game` is absent (the
source's fallbacks): no wind, unit gravity and friction scales, stage
width `CANVAS_WIDTH`, respawn `(100, 500)`. -/
def sampleEnv : Env := ⟨0, 1, 1, 1, GAME_CONFIG.CANVAS_WIDTH, 100, 500⟩

/-- An input snapshot holding only the dash button. -/
def dashInput : Input := ⟨false, false, false, false, true⟩

/-- One 60 Hz frame with the dash button held and no entities around. -/
def dashFrame : Frame := ⟨50/3, [], [], [], [], dashInput, sampleEnv⟩

/-- A freshly constructed tank enemy. -/
def tankEnemy : Enemy := Enemy.init 200 300 EnemyType.tank 1200

/-- A freshly constructed player, at the game's start position. -/
def stompPlayer : Player := Player.init 100 500

/-- First, second and third stomp on the tank enemy. -/
def stompR1 : Player × Enemy := Player.defeatEnemy stompPlayer tankEnemy

def stompR2 : Player × Enemy := Player.defeatEnemy stompR1.1 stompR1.2

def stompR3 : Player × Enemy := Player.defeatEnemy stompR2.1 stompR2.2

/-- A player falling at `velocity.y = 5`, one frame into a bounce
platform below. -/
def bouncePlayer : Player := { Player.init 10 70 with vy := 5 }

/-- A bounce platform whose top edge the sample player is crossing. -/
def bouncePlatform : Platform := ⟨0, 100, 100, 20, PlatformType.bounce⟩

/-- A body that crossed a platform top entirely within one frame
(`velocity.y = 500`): its current box lies below the platform. -/
def tunnelBody : Body := ⟨10, 420, 32, 32, 0, 500⟩

/-- The platform tunneled through by `tunnelBody`. -/
def tunnelPlatform : Platform := ⟨0, 400, 100, 10, PlatformType.normal⟩

/-- A dead enemy (a basic enemy after its single hit point is gone). -/
def deadEnemy : Enemy := { Enemy.init 50 50 EnemyType.basic 1200 with isDead := true, health := 0 }

/-- A stand-in for `Math.sin` used by witnesses. -/
def zeroSine : ℚ → ℚ := fun _ => 0

/-- The state invariant behind the horizontal-speed bound: the speed is
within the dash speed and the dash direction is a unit sign (the
constructor sets `dashDirection = 1` and the only assignments are `±1`). -/
def Player.vxInv (p : Player) : Prop :=
  |p.vx| ≤ PHYSICS.DASH_SPEED ∧ (p.dashDirection = 1 ∨ p.dashDirection = -1)

-- Theorems.

/-- Sanity check: whenever the collision detector reports ground it also
reports the landing coordinate `platform.y - player.height`. -/
theorem checkPlatformCollision_collision_isSome (b : Body) (pl : Platform) :
    (CollisionDetector.checkPlatformCollision b pl).isOnGround = true →
    (CollisionDetector.checkPlatformCollision b pl).collision =
      some (pl.y - b.height) := by
  unfold CollisionDetector.checkPlatformCollision
  dsimp only
  split_ifs <;> simp

/-- C6: for every incoming vertical velocity and every environment
gravity scale, the gravity step of `Player.update`
(`velocity.y += GRAVITY * gravityScale` followed by the clamp) leaves
`velocity.y` within `[-20, MAX_FALL_SPEED]`.  The step does not read
`deltaTime`, so the bound holds for every `deltaTime ≥ 0` in particular. -/
theorem applyGravity_bounds (vy gravityScale : ℚ) :
    -20 ≤ Player.applyGravity vy gravityScale ∧
      Player.applyGravity vy gravityScale ≤ PHYSICS.MAX_FALL_SPEED := by
  unfold Player.applyGravity Utils.clamp
  constructor
  · exact le_min (le_max_right _ _) (by norm_num [PHYSICS.MAX_FALL_SPEED])
  · exact min_le_right _ _

/-- C7 counterexample: two axis-aligned boxes that merely touch
(`a.right = b.left = 10`) are reported as intersecting, because
`Rectangle.intersects` negates strict comparisons and therefore treats
shared edges as overlap; the claim says touching rectangles yield
`false`. -/
theorem intersects_touching_counterexample :
    (Rectangle.ofNums 0 0 10 10).right = (Rectangle.ofNums 10 0 10 10).left ∧
      (Rectangle.ofNums 0 0 10 10).intersects (Rectangle.ofNums 10 0 10 10) = true := by
  constructor <;> with_unfolding_all rfl

/-- C7 amended: `Rectangle.intersects(a, b)` returns true iff the two
AABBs overlap on both axes, where exactly touching edges count as
overlapping (the comparisons are strict in the separated directions, so
their negation is a closed-interval overlap test). -/
theorem intersects_iff_closed_overlap (a b : Rectangle) :
    a.intersects b = true ↔
      (a.left ≤ b.right ∧ b.left ≤ a.right ∧ a.top ≤ b.bottom ∧ b.top ≤ a.bottom) := by
  unfold Rectangle.intersects
  simp [not_or, not_lt, and_assoc]

/-- C8: for every constructor input — finite numbers, `NaN`, positive or
negative `Infinity`, negative sizes, non-number values — the `Rectangle`
constructor yields finite (rational) fields with non-negative
`width`/`height`, defaulting non-finite coordinates and sizes to 0, so
malformed geometry never reaches the collision tests. -/
theorem mkRectangle_sanitized (x y w h : JSVal) :
    0 ≤ (mkRectangle x y w h).width ∧ 0 ≤ (mkRectangle x y w h).height ∧
      (x.isFiniteNumber = false → (mkRectangle x y w h).x = 0) ∧
      (y.isFiniteNumber = false → (mkRectangle x y w h).y = 0) ∧
      (w.isFiniteNumber = false → (mkRectangle x y w h).width = 0) ∧
      (h.isFiniteNumber = false → (mkRectangle x y w h).height = 0) := by
  unfold mkRectangle
  refine ⟨le_max_left _ _, le_max_left _ _, ?_, ?_, ?_, ?_⟩ <;> intro hv
  · cases x <;> simp_all [JSVal.isFiniteNumber, JSVal.toNum]
  · cases y <;> simp_all [JSVal.isFiniteNumber, JSVal.toNum]
  · cases w <;> simp_all [JSVal.isFiniteNumber, JSVal.toNum]
  · cases h <;> simp_all [JSVal.isFiniteNumber, JSVal.toNum]

/-- C8 witness: a rectangle built from `NaN`, `-Infinity`, a non-number
and a negative size comes out all zeros with non-negative dimensions. -/
theorem mkRectangle_sanitized_witness :
    (mkRectangle JSVal.nan JSVal.negInf JSVal.other (JSVal.num (-3))).x = 0 ∧
      (mkRectangle JSVal.nan JSVal.negInf JSVal.other (JSVal.num (-3))).y = 0 ∧
      (mkRectangle JSVal.nan JSVal.negInf JSVal.other (JSVal.num (-3))).width = 0 ∧
      0 ≤ (mkRectangle JSVal.nan JSVal.negInf JSVal.other (JSVal.num (-3))).height :=
  ⟨(mkRectangle_sanitized JSVal.nan JSVal.negInf JSVal.other (JSVal.num (-3))).2.2.1 rfl,
   (mkRectangle_sanitized JSVal.nan JSVal.negInf JSVal.other (JSVal.num (-3))).2.2.2.1 rfl,
   (mkRectangle_sanitized JSVal.nan JSVal.negInf JSVal.other (JSVal.num (-3))).2.2.2.2.1 rfl,
   (mkRectangle_sanitized JSVal.nan JSVal.negInf JSVal.other (JSVal.num (-3))).2.1⟩

/-- C4: while `invulnerable` or under the invincibility power-up,
`Player.checkEnemyCollisions` returns before processing any enemy (the
player and the enemy list are returned unchanged — no lives change, no
respawn, no velocity reset, no invulnerability restart) and
`Player.takeDamage` is a no-op. -/
theorem invulnerable_overlap_no_state_change (p : Player) (enemies : List Enemy) (env : Env)
    (h : p.invulnerable = true ∨ p.powerUps.invincible = true) :
    Player.checkEnemyCollisions p enemies env = (p, enemies) ∧
      Player.takeDamage p env = p := by
  unfold Player.checkEnemyCollisions Player.takeDamage
  rw [if_pos h, if_pos h]
  exact ⟨rfl, rfl⟩

/-- C4 witness: an invulnerable player overlapping a live basic enemy at
its own position is left untouched. -/
theorem invulnerable_overlap_no_state_change_witness :
    Player.checkEnemyCollisions { Player.init 100 500 with invulnerable := true }
        [Enemy.init 100 500 EnemyType.basic 1200] sampleEnv =
      ({ Player.init 100 500 with invulnerable := true },
        [Enemy.init 100 500 EnemyType.basic 1200]) ∧
      Player.takeDamage { Player.init 100 500 with invulnerable := true } sampleEnv =
        { Player.init 100 500 with invulnerable := true } :=
  invulnerable_overlap_no_state_change _ _ _ (Or.inl rfl)

/-- C5: each stomp on a tank enemy (initial health 3) decrements health
by exactly one and marks it dead exactly on the third stomp, and every
stomp grants the player the upward bounce
`velocity.y = JUMP_FORCE * 0.7`; but the score is NOT granted: the
player's score is unchanged after all three stomps, because
`this.addScore?.(20)` in `defeatEnemy` silently no-ops (the `Player`
class has no `addScore` method), contradicting the claim's and the
spec's score-award contract. -/
theorem tank_three_stomps_no_score :
    tankEnemy.health = 3 ∧ tankEnemy.isDead = false ∧
      stompR1.2.health = 2 ∧ stompR1.2.isDead = false ∧
      stompR2.2.health = 1 ∧ stompR2.2.isDead = false ∧
      stompR3.2.health = 0 ∧ stompR3.2.isDead = true ∧
      stompR1.1.vy = PHYSICS.JUMP_FORCE * (7/10) ∧
      stompR2.1.vy = PHYSICS.JUMP_FORCE * (7/10) ∧
      stompR3.1.vy = PHYSICS.JUMP_FORCE * (7/10) ∧
      stompR3.1.score = stompPlayer.score := by
  refine ⟨?_, ?_, ?_, ?_, ?_, ?_, ?_, ?_, ?_, ?_, ?_, ?_⟩ <;> with_unfolding_all rfl

/-- Helper: the enemy platform loop body never writes `isDead`. -/
theorem Enemy.platformStep_isDead (acc : Enemy) (pl : Platform) :
    (Enemy.platformStep acc pl).isDead = acc.isDead := by
  unfold Enemy.platformStep
  dsimp only
  split_ifs <;> rfl

/-- Helper: folding the enemy platform loop never writes `isDead`. -/
theorem Enemy.foldl_platformStep_isDead (platforms : List Platform) :
    ∀ e : Enemy, (platforms.foldl Enemy.platformStep e).isDead = e.isDead := by
  induction platforms with
  | nil => intro e; rfl
  | cons hd tl ih =>
      intro e
      rw [List.foldl_cons, ih, Enemy.platformStep_isDead]

/-- Helper: `Enemy.checkPlatformCollisions` never writes `isDead`. -/
theorem Enemy.checkPlatformCollisions_isDead (e : Enemy) (platforms : List Platform) :
    (e.checkPlatformCollisions platforms).isDead = e.isDead := by
  unfold Enemy.checkPlatformCollisions
  split_ifs
  · rfl
  · exact Enemy.foldl_platformStep_isDead platforms e

/-- Helper: `Enemy.checkBounds` never clears `isDead` (it can only set
it). -/
theorem Enemy.checkBounds_isDead_mono (e : Enemy) (env : Env) (h : e.isDead = true) :
    (e.checkBounds env).isDead = true := by
  unfold Enemy.checkBounds
  dsimp only
  split_ifs <;> simp_all

/-- C10: `Enemy.isDead` is terminal: `takeHit` on a dead enemy returns
`true` with health (and everything else) unchanged, `Enemy.update`
returns immediately with no state change when dead, and neither
`checkBounds` nor `checkPlatformCollisions` (the only other mutating
methods) ever resets `isDead` back to false. -/
theorem enemy_dead_terminal (sine : ℚ → ℚ) (e : Enemy) (dt : ℚ) (platforms : List Platform)
    (player : Option (ℚ × ℚ)) (env : Env) (hd : e.isDead = true) :
    Enemy.takeHit e = (e, true) ∧
      Enemy.update sine e dt platforms player env = e ∧
      (Enemy.checkBounds e env).isDead = true ∧
      (Enemy.checkPlatformCollisions e platforms).isDead = true := by
  refine ⟨?_, ?_, ?_, ?_⟩
  · unfold Enemy.takeHit
    rw [if_pos hd]
  · unfold Enemy.update
    rw [if_pos hd]
  · exact Enemy.checkBounds_isDead_mono e env hd
  · rw [Enemy.checkPlatformCollisions_isDead]
    exact hd

/-- C10 witness: a concrete dead basic enemy under a concrete frame. -/
theorem enemy_dead_terminal_witness :
    Enemy.takeHit deadEnemy = (deadEnemy, true) ∧
      Enemy.update zeroSine deadEnemy 16 [] none sampleEnv = deadEnemy ∧
      (Enemy.checkBounds deadEnemy sampleEnv).isDead = true ∧
      (Enemy.checkPlatformCollisions deadEnemy []).isDead = true :=
  enemy_dead_terminal zeroSine deadEnemy 16 [] none sampleEnv rfl

/-- C1: for any player body and platform with non-negative box sizes
whose current-frame AABBs do not overlap,
`CollisionDetector.checkPlatformCollision` reports a ground landing
(`isOnGround = true` with landing `y = platform.y - player.height`)
exactly when the fall is downward or stationary (`velocity.y ≥ 0`), the
previous-frame bottom edge (reconstructed as `y - velocity.y` plus
height) is at or above the platform top, the current bottom edge is at
or below the platform top, and horizontal overlap existed in the current
or previous frame — so a fall crossing a platform top within one frame
is detected instead of tunneling through. -/
theorem tunneling_landing_iff (b : Body) (pl : Platform)
    (hbw : 0 ≤ b.width) (hbh : 0 ≤ b.height) (hpw : 0 ≤ pl.width) (hph : 0 ≤ pl.height)
    (hno : (Rectangle.ofNums b.x b.y b.width b.height).intersects
        (Rectangle.ofNums pl.x pl.y pl.width pl.height) = false) :
    CollisionDetector.checkPlatformCollision b pl =
        { isOnGround := true, collision := some (pl.y - b.height) } ↔
      (b.vy ≥ 0 ∧ (b.y - b.vy) + b.height ≤ pl.y ∧ b.y + b.height ≥ pl.y ∧
        ((b.x + b.width > pl.x ∧ b.x < pl.x + pl.width) ∨
          ((b.x - b.vx) + b.width > pl.x ∧ (b.x - b.vx) < pl.x + pl.width))) := by
  unfold CollisionDetector.checkPlatformCollision CollisionDetector.checkCollision
  dsimp only
  rw [if_pos (by simp [hno])]
  simp only [Rectangle.ofNums, mkRectangle, JSVal.toNum, Rectangle.right, Rectangle.left,
    Rectangle.top, Rectangle.bottom, max_eq_right hbw, max_eq_right hbh,
    max_eq_right hpw, max_eq_right hph]
  split_ifs with hC
  · exact iff_of_true rfl hC
  · refine iff_of_false ?_ hC
    intro hfalse
    exact absurd (congrArg CollisionResult.isOnGround hfalse) (by simp)

/-- C1 witness: a body falling at `velocity.y = 500` whose box is fully
below the platform this frame (no overlap) is still reported as landing
at `y = 368 = platform.y - height`. -/
theorem tunneling_landing_iff_witness :
    CollisionDetector.checkPlatformCollision tunnelBody tunnelPlatform =
      { isOnGround := true, collision := some (tunnelPlatform.y - tunnelBody.height) } :=
  (tunneling_landing_iff tunnelBody tunnelPlatform
      (by norm_num [tunnelBody]) (by norm_num [tunnelBody])
      (by norm_num [tunnelPlatform]) (by norm_num [tunnelPlatform])
      (by with_unfolding_all rfl)).mpr
    (by refine ⟨by norm_num [tunnelBody], ?_, ?_, Or.inl ⟨?_, ?_⟩⟩ <;>
      norm_num [tunnelBody, tunnelPlatform])

/-- Helper: with upward velocity the collision detector never reports
ground (both branches require `velocity.y ≥ 0`). -/
theorem checkPlatformCollision_neg_vy (b : Body) (pl : Platform) (h : b.vy < 0) :
    CollisionDetector.checkPlatformCollision b pl =
      { isOnGround := false, collision := none } := by
  unfold CollisionDetector.checkPlatformCollision
  dsimp only
  split_ifs with h1 h2 h3 <;>
    first
      | rfl
      | exact absurd h2.1 (not_le.mpr h)
      | exact absurd h3.1 (not_le.mpr h)

/-- Helper: with upward velocity the platform loop body only touches the
wall-contact flags. -/
theorem platformStep_neg_vy (env : Env) (q : Player) (pl : Platform) (h : q.vy < 0) :
    (Player.platformStep env q pl).isOnGround = q.isOnGround ∧
      (Player.platformStep env q pl).vy = q.vy ∧
      (Player.platformStep env q pl).airJumpsRemaining = q.airJumpsRemaining ∧
      (Player.platformStep env q pl).maxAirJumps = q.maxAirJumps := by
  unfold Player.platformStep
  rw [checkPlatformCollision_neg_vy q.toBody pl h]
  dsimp only
  split_ifs <;> first | exact ⟨rfl, rfl, rfl, rfl⟩ | simp_all

/-- Helper: with upward velocity the whole platform loop preserves the
ground flag, the vertical velocity and the air-jump counters. -/
theorem foldl_platformStep_neg_vy (env : Env) (post : List Platform) :
    ∀ q : Player, q.vy < 0 →
      (post.foldl (Player.platformStep env) q).isOnGround = q.isOnGround ∧
        (post.foldl (Player.platformStep env) q).vy = q.vy ∧
        (post.foldl (Player.platformStep env) q).airJumpsRemaining = q.airJumpsRemaining := by
  induction post with
  | nil => exact fun q _ => ⟨rfl, rfl, rfl⟩
  | cons hd tl ih =>
      intro q h
      have hs := platformStep_neg_vy env q hd h
      have ih2 := ih (Player.platformStep env q hd) (by rw [hs.2.1]; exact h)
      rw [List.foldl_cons]
      exact ⟨ih2.1.trans hs.1, ih2.2.1.trans hs.2.1, ih2.2.2.trans hs.2.2.1⟩

/-- Helper: `takeDamage` does not touch `airJumpsRemaining`. -/
theorem takeDamage_airJumpsRemaining (p : Player) (env : Env) :
    (Player.takeDamage p env).airJumpsRemaining = p.airJumpsRemaining := by
  unfold Player.takeDamage
  dsimp only
  split_ifs <;> rfl

/-- Helper: `takeDamage` does not touch `maxAirJumps`. -/
theorem takeDamage_maxAirJumps (p : Player) (env : Env) :
    (Player.takeDamage p env).maxAirJumps = p.maxAirJumps := by
  unfold Player.takeDamage
  dsimp only
  split_ifs <;> rfl

/-- Helper: landing on a bounce platform reassigns
`velocity.y = JUMP_FORCE * 0.9`, clears the ground flag, and has already
restored the air jumps. -/
theorem platformStep_bounce_contact (env : Env) (q : Player) (pl : Platform)
    (hb : pl.type = PlatformType.bounce)
    (hc : (CollisionDetector.checkPlatformCollision q.toBody pl).isOnGround = true) :
    (Player.platformStep env q pl).vy = PHYSICS.JUMP_FORCE * (9/10) ∧
      (Player.platformStep env q pl).isOnGround = false ∧
      (Player.platformStep env q pl).airJumpsRemaining = q.maxAirJumps := by
  unfold Player.platformStep
  rcases hE : CollisionDetector.checkPlatformCollision q.toBody pl with ⟨g, c⟩
  rw [hE] at hc
  dsimp only at hc
  subst hc
  dsimp only
  rw [hb]
  dsimp only
  split_ifs <;> first | exact ⟨rfl, rfl, rfl⟩ | simp_all

/-- Helper: on any ground contact the platform loop body sets
`airJumpsRemaining = maxAirJumps` (the restore happens before the
platform-type switch, and no switch arm — spike damage included —
touches the counter again). -/
theorem platformStep_contact_airJumps (env : Env) (q : Player) (pl : Platform)
    (hc : (CollisionDetector.checkPlatformCollision q.toBody pl).isOnGround = true) :
    (Player.platformStep env q pl).airJumpsRemaining = q.maxAirJumps := by
  obtain ⟨px, py, pw, ph, ptype⟩ := pl
  unfold Player.platformStep
  dsimp only
  rw [if_pos hc]
  cases ptype <;> dsimp only <;> split_ifs <;>
    (try rw [takeDamage_airJumpsRemaining]) <;> rfl

/-- Helper: the platform loop body never changes `maxAirJumps`. -/
theorem platformStep_maxAirJumps (env : Env) (q : Player) (pl : Platform) :
    (Player.platformStep env q pl).maxAirJumps = q.maxAirJumps := by
  obtain ⟨px, py, pw, ph, ptype⟩ := pl
  cases ptype <;>
    (unfold Player.platformStep; dsimp only; split_ifs <;>
      (try rw [takeDamage_maxAirJumps]) <;> rfl)

/-- Helper: the whole platform loop never changes `maxAirJumps`. -/
theorem foldl_platformStep_maxAirJumps (env : Env) (platforms : List Platform) :
    ∀ q : Player, (platforms.foldl (Player.platformStep env) q).maxAirJumps = q.maxAirJumps := by
  induction platforms with
  | nil => exact fun _ => rfl
  | cons hd tl ih =>
      intro q
      rw [List.foldl_cons, ih, platformStep_maxAirJumps]

/-- C3: when the platform loop of `Player.checkPlatformCollisions`
makes ground contact with a platform of type bounce (with arbitrary
platforms before and after it in the list), the player's vertical
velocity is reassigned to `JUMP_FORCE * 0.9` (a negative, upward value)
immediately at that step, and the frame's `checkPlatformCollisions` ends
with `isOnGround = false` — the remaining platforms cannot re-ground the
player because both detector branches require `velocity.y ≥ 0`. -/
theorem bounce_landing_no_ground (env : Env) (p : Player) (pre post : List Platform)
    (pl : Platform) (hb : pl.type = PlatformType.bounce)
    (hc : (CollisionDetector.checkPlatformCollision
        (Player.toBody (pre.foldl (Player.platformStep env)
          { p with isOnGround := false, surfaceFrictionScale := 1 })) pl).isOnGround = true) :
    (Player.checkPlatformCollisions p (pre ++ pl :: post) env).isOnGround = false ∧
      (Player.platformStep env
          (pre.foldl (Player.platformStep env)
            { p with isOnGround := false, surfaceFrictionScale := 1 }) pl).vy =
        PHYSICS.JUMP_FORCE * (9/10) ∧
      (Player.platformStep env
          (pre.foldl (Player.platformStep env)
            { p with isOnGround := false, surfaceFrictionScale := 1 }) pl).vy < 0 := by
  unfold Player.checkPlatformCollisions
  dsimp only
  rw [List.foldl_append, List.foldl_cons]
  have hs := platformStep_bounce_contact env
    (pre.foldl (Player.platformStep env) { p with isOnGround := false, surfaceFrictionScale := 1 })
    pl hb hc
  have hneg : (Player.platformStep env
      (pre.foldl (Player.platformStep env)
        { p with isOnGround := false, surfaceFrictionScale := 1 }) pl).vy < 0 := by
    rw [hs.1]
    norm_num [PHYSICS.JUMP_FORCE]
  have hf := foldl_platformStep_neg_vy env post _ hneg
  exact ⟨hf.1.trans hs.2.1, hs.1, hneg⟩

/-- C3 witness: the sample falling player over a single bounce platform:
vertical velocity becomes `-13.5` and the frame ends not grounded. -/
theorem bounce_landing_no_ground_witness :
    (Player.checkPlatformCollisions bouncePlayer [bouncePlatform] sampleEnv).isOnGround = false ∧
      (Player.platformStep sampleEnv
          { bouncePlayer with isOnGround := false, surfaceFrictionScale := 1 }
          bouncePlatform).vy = PHYSICS.JUMP_FORCE * (9/10) ∧
      (Player.platformStep sampleEnv
          { bouncePlayer with isOnGround := false, surfaceFrictionScale := 1 }
          bouncePlatform).vy < 0 :=
  bounce_landing_no_ground sampleEnv bouncePlayer [] [] bouncePlatform rfl
    (by with_unfolding_all rfl)

/-- C9: whenever the platform loop of `Player.checkPlatformCollisions`
detects ground contact — for every platform type, bounce and spike
included — `airJumpsRemaining` is restored to `maxAirJumps` before the
platform-type branch runs; consequently a bounce-platform contact
(arbitrary platforms before and after) refills the air-jump charges even
though the frame ends with `isOnGround = false`. -/
theorem ground_contact_restores_air_jumps :
    (∀ (env : Env) (q : Player) (pl : Platform),
        (CollisionDetector.checkPlatformCollision q.toBody pl).isOnGround = true →
        (Player.platformStep env q pl).airJumpsRemaining = q.maxAirJumps) ∧
      (∀ (env : Env) (p : Player) (pre post : List Platform) (pl : Platform),
        pl.type = PlatformType.bounce →
        (CollisionDetector.checkPlatformCollision
            (Player.toBody (pre.foldl (Player.platformStep env)
              { p with isOnGround := false, surfaceFrictionScale := 1 })) pl).isOnGround = true →
        (Player.checkPlatformCollisions p (pre ++ pl :: post) env).airJumpsRemaining =
            p.maxAirJumps ∧
          (Player.checkPlatformCollisions p (pre ++ pl :: post) env).isOnGround = false) := by
  constructor
  · exact fun env q pl hc => platformStep_contact_airJumps env q pl hc
  · intro env p pre post pl hb hc
    unfold Player.checkPlatformCollisions
    dsimp only
    rw [List.foldl_append, List.foldl_cons]
    have hs := platformStep_bounce_contact env
      (pre.foldl (Player.platformStep env) { p with isOnGround := false, surfaceFrictionScale := 1 })
      pl hb hc
    have hneg : (Player.platformStep env
        (pre.foldl (Player.platformStep env)
          { p with isOnGround := false, surfaceFrictionScale := 1 }) pl).vy < 0 := by
      rw [hs.1]
      norm_num [PHYSICS.JUMP_FORCE]
    have hf := foldl_platformStep_neg_vy env post _ hneg
    constructor
    · rw [hf.2.2, hs.2.2, foldl_platformStep_maxAirJumps]
    · exact hf.1.trans hs.2.1

/-- C9 witness: the sample falling player over a single bounce platform:
air jumps are restored to the maximum while the frame ends airborne. -/
theorem ground_contact_restores_air_jumps_witness :
    (Player.checkPlatformCollisions bouncePlayer [bouncePlatform] sampleEnv).airJumpsRemaining =
        bouncePlayer.maxAirJumps ∧
      (Player.checkPlatformCollisions bouncePlayer [bouncePlatform] sampleEnv).isOnGround = false :=
  ground_contact_restores_air_jumps.2 sampleEnv bouncePlayer [] [] bouncePlatform rfl
    (by with_unfolding_all rfl)

/-- Helper: the `±MAX_SPEED` clamp yields a speed within `MAX_SPEED`. -/
theorem clamp_max_speed_abs (v : ℚ) :
    |Utils.clamp v (-PHYSICS.MAX_SPEED) PHYSICS.MAX_SPEED| ≤ PHYSICS.MAX_SPEED := by
  unfold Utils.clamp
  rw [abs_le]
  refine ⟨le_min (le_max_right _ _) (by norm_num [PHYSICS.MAX_SPEED]), min_le_right _ _⟩

/-- Helper: the effective ground friction factor lies within `[0, 1]`. -/
theorem abs_friction_le_one (td : ℚ) : |1 - Utils.clamp td 0 (9/10)| ≤ 1 := by
  unfold Utils.clamp
  have h1 : (0:ℚ) ≤ min (max td 0) (9/10) := le_min (le_max_right _ _) (by norm_num)
  have h2 : min (max td 0) (9/10 : ℚ) ≤ 9/10 := min_le_right _ _
  rw [abs_le]
  constructor <;> linarith

/-- Helper: shrinking a `MAX_SPEED`-bounded speed by a factor of at most
one keeps it `MAX_SPEED`-bounded. -/
theorem abs_mul_le_max_speed (a b : ℚ) (ha : |a| ≤ PHYSICS.MAX_SPEED) (hb : |b| ≤ 1) :
    |a * b| ≤ PHYSICS.MAX_SPEED := by
  calc |a * b| = |a| * |b| := abs_mul a b
    _ ≤ PHYSICS.MAX_SPEED * 1 :=
        mul_le_mul ha hb (abs_nonneg b) (by norm_num [PHYSICS.MAX_SPEED])
    _ = PHYSICS.MAX_SPEED := mul_one _

/-- Helper: the air-resistance factor lies within `[-1, 1]`. -/
theorem air_resistance_abs_le_one : |PHYSICS.AIR_RESISTANCE| ≤ 1 := by
  rw [abs_le]
  norm_num [PHYSICS.AIR_RESISTANCE]

set_option maxHeartbeats 1000000 in
/-- Helper: `handleHorizontalMovement` always leaves
`|velocity.x| ≤ MAX_SPEED` (the clamp runs unconditionally and the
friction/air-resistance factors only shrink the speed). -/
theorem handleHorizontalMovement_vx_le (p : Player) (input : Input) (dt : ℚ) (env : Env) :
    |(Player.handleHorizontalMovement p input dt env).vx| ≤ PHYSICS.MAX_SPEED := by
  unfold Player.handleHorizontalMovement
  dsimp only
  split_ifs <;>
    first
      | with_reducible exact clamp_max_speed_abs _
      | with_reducible exact abs_mul_le_max_speed _ _ (clamp_max_speed_abs _) (abs_friction_le_one _)
      | with_reducible exact abs_mul_le_max_speed _ _ (clamp_max_speed_abs _) air_resistance_abs_le_one
      | norm_num [PHYSICS.MAX_SPEED]

/-- Helper: replacing only non-horizontal fields preserves the speed
invariant. -/
theorem vxInv_congr (p q : Player) (hvx : q.vx = p.vx)
    (hdir : q.dashDirection = p.dashDirection) (h : Player.vxInv p) : Player.vxInv q := by
  unfold Player.vxInv at h ⊢
  rw [hvx, hdir]
  exact h

/-- Helper: replacing the speed by any `DASH_SPEED`-bounded value
preserves the invariant. -/
theorem vxInv_set_vx (p q : Player) (hdir : q.dashDirection = p.dashDirection)
    (hvx : |q.vx| ≤ PHYSICS.DASH_SPEED) (h : Player.vxInv p) : Player.vxInv q := by
  unfold Player.vxInv at h ⊢
  rw [hdir]
  exact ⟨hvx, h.2⟩

/-- Helper: dash activation preserves the speed invariant (the written
direction is `±1` and the written speed is `dashSpeed * (±1)`). -/
theorem vxInv_dashActivate (p : Player) (input : Input) (h : Player.vxInv p) :
    Player.vxInv (Player.dashActivate p input) := by
  obtain ⟨hv, hd⟩ := h
  unfold Player.dashActivate Player.vxInv
  dsimp only
  split_ifs <;> refine ⟨?_, ?_⟩ <;>
    first
      | exact hv
      | exact hd
      | exact Or.inl rfl
      | exact Or.inr rfl
      | norm_num [Player.dashSpeed, PHYSICS.DASH_SPEED]

/-- Helper: the dash speed lock preserves the invariant (the direction
is a unit sign by the invariant). -/
theorem vxInv_dashLock (p : Player) (h : Player.vxInv p) :
    Player.vxInv (Player.dashLock p) := by
  obtain ⟨hv, hd⟩ := h
  unfold Player.dashLock Player.vxInv
  split_ifs <;> refine ⟨?_, ?_⟩ <;>
    first
      | exact hv
      | exact hd
      | (rcases hd with hd1 | hd1 <;> rw [hd1] <;>
          norm_num [Player.dashSpeed, PHYSICS.DASH_SPEED])

/-- Helper: the dash cooldown tick preserves the invariant. -/
theorem vxInv_dashCooldownTick (p : Player) (dt : ℚ) (h : Player.vxInv p) :
    Player.vxInv (Player.dashCooldownTick p dt) := by
  unfold Player.dashCooldownTick
  split_ifs <;> first | exact vxInv_congr p _ rfl rfl h | exact h

/-- Helper: the dash duration tick preserves the invariant. -/
theorem vxInv_dashTimerTick (p : Player) (dt : ℚ) (h : Player.vxInv p) :
    Player.vxInv (Player.dashTimerTick p dt) := by
  unfold Player.dashTimerTick
  dsimp only
  split_ifs <;> first | exact vxInv_congr p _ rfl rfl h | exact h

/-- Helper: `handleDash` preserves the speed invariant (it writes
`velocity.x = dashSpeed * dashDirection` with a unit direction). -/
theorem vxInv_handleDash (p : Player) (input : Input) (dt : ℚ) (h : Player.vxInv p) :
    Player.vxInv (Player.handleDash p input dt) :=
  vxInv_dashTimerTick _ dt
    (vxInv_dashCooldownTick _ dt (vxInv_dashLock _ (vxInv_dashActivate p input h)))

/-- Helper: `handleHorizontalMovement` preserves the invariant. -/
theorem vxInv_handleHorizontalMovement (p : Player) (input : Input) (dt : ℚ) (env : Env)
    (h : Player.vxInv p) : Player.vxInv (Player.handleHorizontalMovement p input dt env) := by
  refine vxInv_set_vx p _ rfl ?_ h
  exact (handleHorizontalMovement_vx_le p input dt env).trans
    (by norm_num [PHYSICS.MAX_SPEED, PHYSICS.DASH_SPEED])

/-- Helper: the jump-start block preserves the invariant (the wall jump
writes `velocity.x = WALL_JUMP_X * (±1)` with `|±6| ≤ DASH_SPEED`). -/
theorem vxInv_jumpFire (p : Player) (h : Player.vxInv p) :
    Player.vxInv (Player.jumpFire p) := by
  obtain ⟨hv, hd⟩ := h
  unfold Player.jumpFire Player.vxInv
  dsimp only
  split_ifs <;> refine ⟨?_, ?_⟩ <;>
    first
      | exact hv
      | exact hd
      | norm_num [PHYSICS.WALL_JUMP_X, PHYSICS.DASH_SPEED]

/-- Helper: the button-release block preserves the invariant. -/
theorem vxInv_jumpRelease (p : Player) (input : Input) (h : Player.vxInv p) :
    Player.vxInv (Player.jumpRelease p input) := by
  unfold Player.jumpRelease
  dsimp only
  split_ifs <;>
    first
      | exact h
      | exact vxInv_congr p _ rfl rfl h

/-- Helper: `handleJump` preserves the invariant. -/
theorem vxInv_handleJump (p : Player) (input : Input) (dt : ℚ) (h : Player.vxInv p) :
    Player.vxInv (Player.handleJump p input dt) :=
  vxInv_jumpRelease _ input
    (vxInv_jumpFire _ (vxInv_congr p _ rfl rfl h))

/-- Helper: `takeDamage` preserves the invariant (it zeroes or keeps the
velocity). -/
theorem vxInv_takeDamage (p : Player) (env : Env) (h : Player.vxInv p) :
    Player.vxInv (Player.takeDamage p env) := by
  obtain ⟨hv, hd⟩ := h
  unfold Player.takeDamage Player.vxInv
  dsimp only
  split_ifs <;> constructor <;>
    first
      | exact hv
      | exact hd
      | norm_num [PHYSICS.DASH_SPEED]

/-- Helper: `checkBounds` preserves the invariant. -/
theorem vxInv_checkBounds (p : Player) (env : Env) (h : Player.vxInv p) :
    Player.vxInv (Player.checkBounds p env) := by
  unfold Player.checkBounds
  dsimp only
  split_ifs <;>
    first
      | exact h
      | exact vxInv_set_vx p _ rfl (by norm_num [PHYSICS.DASH_SPEED]) h
      | exact vxInv_congr p _ rfl rfl h
      | exact vxInv_takeDamage _ env h
      | exact vxInv_takeDamage _ env (vxInv_set_vx p _ rfl (by norm_num [PHYSICS.DASH_SPEED]) h)
      | exact vxInv_takeDamage _ env (vxInv_congr p _ rfl rfl h)

/-- Helper: the platform loop body preserves the invariant (only the
spike arm touches the player beyond vertical fields, through
`takeDamage`). -/
theorem vxInv_platformStep (env : Env) (q : Player) (pl : Platform) (h : Player.vxInv q) :
    Player.vxInv (Player.platformStep env q pl) := by
  obtain ⟨px, py, pw, ph, ptype⟩ := pl
  cases ptype <;>
    (unfold Player.platformStep; dsimp only; split_ifs <;>
      first
        | exact h
        | exact vxInv_congr q _ rfl rfl h
        | exact vxInv_takeDamage _ env (vxInv_congr q _ rfl rfl h)
        | exact vxInv_congr _ _ rfl rfl (vxInv_takeDamage _ env (vxInv_congr q _ rfl rfl h)))

/-- Helper: the whole platform loop preserves the invariant. -/
theorem vxInv_checkPlatformCollisions (p : Player) (platforms : List Platform) (env : Env)
    (h : Player.vxInv p) : Player.vxInv (Player.checkPlatformCollisions p platforms env) := by
  unfold Player.checkPlatformCollisions
  dsimp only
  have hstart : Player.vxInv { p with isOnGround := false, surfaceFrictionScale := 1 } :=
    vxInv_congr p _ rfl rfl h
  generalize { p with isOnGround := false, surfaceFrictionScale := 1 } = q at hstart ⊢
  induction platforms generalizing q with
  | nil => exact hstart
  | cons hd tl ih =>
      rw [List.foldl_cons]
      exact ih _ (vxInv_platformStep env q hd hstart)

/-- Helper: `updateWallSlide` preserves the invariant (vertical fields
and wall flags only). -/
theorem vxInv_updateWallSlide (p : Player) (input : Input) (dt : ℚ) (h : Player.vxInv p) :
    Player.vxInv (Player.updateWallSlide p input dt) := by
  unfold Player.updateWallSlide
  dsimp only
  split_ifs <;> exact vxInv_congr p _ rfl rfl h

/-- Helper: `defeatEnemy` leaves the player's horizontal state alone. -/
theorem vxInv_defeatEnemy (p : Player) (enemy : Enemy) (h : Player.vxInv p) :
    Player.vxInv (Player.defeatEnemy p enemy).1 :=
  vxInv_congr p _ rfl rfl h

/-- Helper: the enemy loop body preserves the invariant. -/
theorem vxInv_enemyStep (env : Env) (acc : Player × List Enemy) (enemy : Enemy)
    (h : Player.vxInv acc.1) : Player.vxInv (Player.enemyStep env acc enemy).1 := by
  unfold Player.enemyStep
  dsimp only
  split_ifs <;>
    first
      | exact h
      | exact vxInv_defeatEnemy acc.1 enemy h
      | exact vxInv_takeDamage _ env h

/-- Helper: the whole enemy loop preserves the invariant. -/
theorem vxInv_foldl_enemyStep (env : Env) (enemies : List Enemy) :
    ∀ acc : Player × List Enemy, Player.vxInv acc.1 →
      Player.vxInv (enemies.foldl (Player.enemyStep env) acc).1 := by
  induction enemies with
  | nil => exact fun _ h => h
  | cons hd tl ih =>
      intro acc h
      rw [List.foldl_cons]
      exact ih _ (vxInv_enemyStep env acc hd h)

/-- Helper: `checkEnemyCollisions` preserves the invariant. -/
theorem vxInv_checkEnemyCollisions (p : Player) (enemies : List Enemy) (env : Env)
    (h : Player.vxInv p) : Player.vxInv (Player.checkEnemyCollisions p enemies env).1 := by
  unfold Player.checkEnemyCollisions
  split_ifs
  · exact h
  · exact vxInv_foldl_enemyStep env enemies (p, []) h

/-- Helper: `collectCoins` leaves the player untouched. -/
theorem vxInv_collectCoins (p : Player) (coins : List Coin) (h : Player.vxInv p) :
    Player.vxInv (Player.collectCoins p coins).1 := h

/-- Helper: `applyPowerUp` only touches the power-up record. -/
theorem vxInv_applyPowerUp (p : Player) (powerUp : PowerUp) (h : Player.vxInv p) :
    Player.vxInv (Player.applyPowerUp p powerUp) := by
  obtain ⟨ux, uy, uw, uh, utype⟩ := powerUp
  cases utype <;> exact vxInv_congr p _ rfl rfl h

/-- Helper: `collectPowerUps` preserves the invariant. -/
theorem vxInv_collectPowerUps (powerUps : List PowerUp) :
    ∀ p : Player, Player.vxInv p → Player.vxInv (Player.collectPowerUps p powerUps).1 := by
  induction powerUps with
  | nil => exact fun _ h => h
  | cons hd tl ih =>
      intro p h
      unfold Player.collectPowerUps at ih ⊢
      rw [List.foldr_cons]
      split_ifs
      · exact vxInv_applyPowerUp _ hd (ih p h)
      · exact ih p h

/-- Helper: `updatePowerUps` preserves the invariant. -/
theorem vxInv_updatePowerUps (p : Player) (dt : ℚ) (h : Player.vxInv p) :
    Player.vxInv (Player.updatePowerUps p dt) := by
  unfold Player.updatePowerUps
  dsimp only
  split_ifs <;> exact vxInv_congr p _ rfl rfl h

/-- Helper: changing only the vertical velocity preserves the invariant. -/
theorem vxInv_mk_vy (p : Player) (v : ℚ) (h : Player.vxInv p) :
    Player.vxInv { p with vy := v } := by
  unfold Player.vxInv at h ⊢
  exact ⟨h.1, h.2⟩

/-- Helper: changing only the position preserves the invariant. -/
theorem vxInv_mk_xy (p : Player) (a c : ℚ) (h : Player.vxInv p) :
    Player.vxInv { p with x := a, y := c } := by
  unfold Player.vxInv at h ⊢
  exact ⟨h.1, h.2⟩

/-- Helper: changing only the invulnerability fields preserves the
invariant. -/
theorem vxInv_mk_invuln (p : Player) (b : Bool) (t : ℚ) (h : Player.vxInv p) :
    Player.vxInv { p with invulnerable := b, invulnerableTime := t } := by
  unfold Player.vxInv at h ⊢
  exact ⟨h.1, h.2⟩

/-- Helper: replacing the speed by a `DASH_SPEED`-bounded value
preserves the invariant. -/
theorem vxInv_mk_vx (p : Player) (v : ℚ) (hv : |v| ≤ PHYSICS.DASH_SPEED)
    (h : Player.vxInv p) : Player.vxInv { p with vx := v } := by
  unfold Player.vxInv at h ⊢
  exact ⟨hv, h.2⟩

/-- Helper: the dash-or-move step preserves the invariant. -/
theorem vxInv_dashOrMove (p : Player) (input : Input) (dt : ℚ) (env : Env)
    (h : Player.vxInv p) : Player.vxInv (Player.dashOrMove p input dt env) := by
  unfold Player.dashOrMove
  dsimp only
  split_ifs
  · exact vxInv_handleHorizontalMovement _ input dt env (vxInv_handleDash p input dt h)
  · exact vxInv_handleDash p input dt h

/-- Helper: the gravity step preserves the invariant. -/
theorem vxInv_applyGravityStep (p : Player) (env : Env) (h : Player.vxInv p) :
    Player.vxInv (Player.applyGravityStep p env) :=
  vxInv_congr p _ rfl rfl h

/-- Helper: the wind step preserves the invariant (it re-clamps to
`±MAX_SPEED`). -/
theorem vxInv_applyWind (p : Player) (dt : ℚ) (env : Env) (h : Player.vxInv p) :
    Player.vxInv (Player.applyWind p dt env) := by
  unfold Player.applyWind
  split_ifs
  · exact vxInv_set_vx p _ rfl ((clamp_max_speed_abs _).trans
      (by norm_num [PHYSICS.MAX_SPEED, PHYSICS.DASH_SPEED])) h
  · exact h

/-- Helper: position integration preserves the invariant. -/
theorem vxInv_integrate (p : Player) (h : Player.vxInv p) :
    Player.vxInv (Player.integrate p) :=
  vxInv_congr p _ rfl rfl h

/-- Helper: the invulnerability countdown preserves the invariant. -/
theorem vxInv_invulnTick (p : Player) (dt : ℚ) (h : Player.vxInv p) :
    Player.vxInv (Player.invulnTick p dt) := by
  unfold Player.invulnTick
  dsimp only
  split_ifs <;> first | exact vxInv_congr p _ rfl rfl h | exact h

/-- Helper: one whole `Player.update` call preserves the invariant. -/
theorem vxInv_update (p : Player) (dt : ℚ) (platforms : List Platform) (enemies : List Enemy)
    (coins : List Coin) (powerUps : List PowerUp) (input : Input) (env : Env)
    (h : Player.vxInv p) :
    Player.vxInv (Player.update p dt platforms enemies coins powerUps input env).player :=
  vxInv_updatePowerUps _ dt
    (vxInv_invulnTick _ dt
      (vxInv_collectPowerUps powerUps _
        (vxInv_collectCoins _ coins
          (vxInv_checkEnemyCollisions _ enemies env
            (vxInv_checkBounds _ env
              (vxInv_updateWallSlide _ input dt
                (vxInv_checkPlatformCollisions _ platforms env
                  (vxInv_integrate _
                    (vxInv_applyWind _ dt env
                      (vxInv_applyGravityStep _ env
                        (vxInv_handleJump _ input dt
                          (vxInv_dashOrMove p input dt env h))))))))))))

set_option maxRecDepth 8000 in
/-- C2 counterexample: one `Player.update` frame with only the dash
button held, starting from the freshly constructed player, ends with
`velocity.x = dashSpeed * 1 = 10`, which violates the claimed bound
`|velocity.x| ≤ MAX_SPEED = 4`. -/
theorem max_speed_violated_by_dash :
    ¬ (|(Player.run (Player.init 100 500) [dashFrame]).vx| ≤ PHYSICS.MAX_SPEED) :=
  of_decide_eq_true (by with_unfolding_all rfl)

/-- C2 amended: for every starting position and every sequence of
per-frame inputs (with arbitrary per-frame platforms, enemies, coins,
power-ups, delta times and environments), after every `Player.update`
call the player's horizontal velocity satisfies
`|velocity.x| ≤ PHYSICS.DASH_SPEED` (= 10).  The `MAX_SPEED` bound of
the original claim holds for the normal-movement path but is exceeded
while dashing (`velocity.x = ±DASH_SPEED`) and on a wall jump
(`velocity.x = ±WALL_JUMP_X`). -/
theorem run_vx_le_dash_speed (x y : ℚ) (frames : List Frame) :
    |(Player.run (Player.init x y) frames).vx| ≤ PHYSICS.DASH_SPEED := by
  have hstep : ∀ (fs : List Frame) (q : Player), Player.vxInv q →
      Player.vxInv (Player.run q fs) := by
    intro fs
    induction fs with
    | nil => exact fun q hq => hq
    | cons f tl ih =>
        intro q hq
        unfold Player.run at ih ⊢
        rw [List.foldl_cons]
        exact ih _ (vxInv_update q f.dt f.platforms f.enemies f.coins f.powerUps f.input f.env hq)
  have hinit : Player.vxInv (Player.init x y) := by
    unfold Player.vxInv Player.init
    refine ⟨by norm_num [PHYSICS.DASH_SPEED], Or.inl rfl⟩
  have hrun := hstep frames (Player.init x y) hinit
  unfold Player.vxInv at hrun
  exact hrun.1
